import Mathlib

/-!
# Litterbox SSH Agent Gatekeeper and Key Vault: a shallow embedding

This file embeds, in Lean, the parts of the `litterbox` repository that the
verified properties talk about:

* `src/litterbox/src/agent.rs` — the agent state (`AgentState`), the
  confirmation policy (`AskAgent::confirm_request`), the confirmation dialog
  (`ConfirmationDialog::update`) and the prompt subprocess entry point
  (`prompt_confirmation`);
* `src/src/main.rs` — the earlier channel/fork based variant of
  `AskAgent::confirm_request`;
* `src/litterbox/src/keys.rs` — the encrypted key vault (`Keys`) and its
  operations (`load`, `init_default`, `generate`, `attach`, `detach`, and the
  decryption loop of `start_server`).

Rust strings handled character-wise (the stdout of the prompt subprocess) are
modelled as `List Char`; byte vectors (`Vec<u8>`) as `List Nat`.  Stateful
code is modelled by explicit state passing; a fallible computation returns a
result type with an explicit `panic` constructor wherever the Rust code can
panic (`unwrap` / `expect` / out-of-bounds slicing).
-/

namespace Litterbox

/-- `UserRequest` from `agent.rs`: one variant per SSH agent operation
category. -/
inductive UserRequest
  | RequestKeys
  | AddKeys
  | RemoveKeys
  | RemoveAllKeys
  | Sign
  | Lock
  | Unlock
deriving DecidableEq, Repr

/-- `UserResponse` from `agent.rs`: the outcome reported by the confirmation
prompt process. -/
inductive UserResponse
  | Approved
  | Declined
  | ApprovedForSession
deriving DecidableEq, Repr

/-- `AgentState` from `agent.rs` (the two `AtomicBool` fields, modelled as
plain booleans since the embedding passes state explicitly). -/
structure AgentState where
  locked : Bool
  approved_for_session : Bool
deriving DecidableEq, Repr

/-- `impl Default for AgentState` in `agent.rs` lines 167–174: both flags are
initialised to `false` (in particular `locked` starts out `false`). -/
def AgentState.default : AgentState :=
  { locked := false, approved_for_session := false }

/-- The `strum` `Display` encoding of a `UserResponse`: the literal variant
name, as printed by `println!("{user_response}")`. -/
def UserResponse.render : UserResponse → List Char
  | .Approved => "Approved".data
  | .Declined => "Declined".data
  | .ApprovedForSession => "ApprovedForSession".data

/-- The `strum` `EnumString` parsing of a `UserResponse` (`resp_str.parse()` in
`confirm_request`): exact match on the variant name, anything else fails. -/
def parseUserResponse (s : List Char) : Option UserResponse :=
  if s = "Approved".data then some .Approved
  else if s = "Declined".data then some .Declined
  else if s = "ApprovedForSession".data then some .ApprovedForSession
  else none

/-- The `strum` `EnumString` parsing of a `UserRequest` (`request.parse()` in
`prompt_confirmation`): exact match on the variant name. -/
def parseUserRequest (s : List Char) : Option UserRequest :=
  if s = "RequestKeys".data then some .RequestKeys
  else if s = "AddKeys".data then some .AddKeys
  else if s = "RemoveKeys".data then some .RemoveKeys
  else if s = "RemoveAllKeys".data then some .RemoveAllKeys
  else if s = "Sign".data then some .Sign
  else if s = "Lock".data then some .Lock
  else if s = "Unlock".data then some .Unlock
  else none

/-- What `confirm_request` observes of the `confirm` subprocess invocation:
either the whole invocation fails (`Command::output` error, non-success exit
status, or non-UTF-8 stdout — the two `.expect(..)` calls), or it yields the
captured stdout. -/
inductive SubprocessOutcome
  | failure
  | stdout (s : List Char)
deriving DecidableEq, Repr

/-- Result of one `confirm_request` call: the boolean decision together with
the agent state it leaves behind, or a panic. -/
inductive ConfirmResult
  | ok (approved : Bool) (st : AgentState)
  | panic
deriving DecidableEq, Repr

/-- `AskAgent::confirm_request` from `agent.rs` lines 63–114.

* If the agent is not locked, the request is automatically approved.
* If the request is `RequestKeys` and `approved_for_session` is set, it is
  approved without prompting.
* Otherwise the `confirm` subprocess is invoked; a failed invocation hits one
  of the two `.expect(..)` calls (panic); on success the code slices off the
  last character of stdout (`&stdout[..(stdout.len() - 1)]`, a panic when
  stdout is empty) and parses the rest: `Approved` approves, `Declined`
  denies, `ApprovedForSession` approves and stores the session flag, and an
  unparseable token denies. -/
def confirm_request (st : AgentState) (req : UserRequest)
    (sub : SubprocessOutcome) : ConfirmResult :=
  if st.locked = false then .ok true st
  else if req = .RequestKeys ∧ st.approved_for_session = true then .ok true st
  else
    match sub with
    | .failure => .panic
    | .stdout out =>
      if out = [] then .panic
      else
        let resp_str := out.dropLast
        match parseUserResponse resp_str with
        | some .Approved => .ok true st
        | some .Declined => .ok false st
        | some .ApprovedForSession =>
            .ok true { st with approved_for_session := true }
        | none => .ok false st

/-- The guard structure of `confirm_request` (lines 66–79): a prompt is issued
exactly when neither early `return true` fires, i.e. when the agent is locked
and the request is not a session-approved `RequestKeys`. -/
def confirm_prompts (st : AgentState) (req : UserRequest) : Bool :=
  st.locked && !(req = UserRequest.RequestKeys && st.approved_for_session)

/-- What `AskAgent::confirm_request` in the earlier channel-based variant
(`src/src/main.rs` lines 37–51) observes of the confirmation transport:
the `mpsc` send fails (channel closed), the `oneshot` receive fails (sender
dropped), or a boolean response arrives. -/
inductive ChannelOutcome
  | sendFailed
  | recvFailed
  | response (b : Bool)
deriving DecidableEq, Repr

/-- `AskAgent::confirm_request` from `src/src/main.rs` lines 39–51: a send
error or a receive error yields `false`; a received response is returned
as-is. -/
def confirm_request_chan : ChannelOutcome → Bool
  | .sendFailed => false
  | .recvFailed => false
  | .response b => b

/-- `ConfirmationDialog::update` line 149: the `Approve for Session` button is
rendered only when the request is `RequestKeys`. -/
def may_approve_for_session (req : UserRequest) : Bool :=
  req = UserRequest.RequestKeys

/-- The one user action (button click) the dialog terminates on. -/
inductive DialogClick
  | approve
  | decline
  | approveForSession
deriving DecidableEq, Repr

/-- `ConfirmationDialog::update` from `agent.rs` lines 124–157, as a function
from the current `user_response` and the user's action (`none` = the window
closed without a click) to the final `user_response`.  A click on
`Approve for Session` can only happen when the button is rendered
(`may_approve_for_session`); otherwise the response is left untouched. -/
def dialog_update (req : UserRequest) (cur : UserResponse)
    (click : Option DialogClick) : UserResponse :=
  match click with
  | some .approve => .Approved
  | some .decline => .Declined
  | some .approveForSession =>
      if may_approve_for_session req then .ApprovedForSession else cur
  | none => cur

/-- `prompt_confirmation` from `agent.rs` lines 212–240: parse the request
string (`.expect(..)`, a panic on an unrecognised name, modelled as `none`),
initialise `user_response` to `Declined`, run the dialog (when `guiOk` is
`false`, `eframe::run_native` failed: the error is printed and
`user_response` keeps its value), and print the final response token. -/
def prompt_confirmation (request : List Char) (guiOk : Bool)
    (click : Option DialogClick) : Option (List Char) :=
  match parseUserRequest request with
  | none => none
  | some user_request =>
    let user_response := UserResponse.Declined
    let user_response :=
      if guiOk then dialog_update user_request user_response click
      else user_response
    some user_response.render

/-! ## The key vault (`src/litterbox/src/keys.rs`) -/

/-- The subset of `LitterboxError` (`errors.rs`) produced by the vault
operations modelled here. -/
inductive LitterboxError
  | PromptError
  | FailedToSerialise (name : String)
  | KeyAlreadyExists (name : String)
  | KeyDoesNotExist (name : String)
  | AlreadyAttachedToKey (key_name litterbox_name : String)
deriving DecidableEq, Repr

/-- Result of a fallible vault operation: `Ok`, a typed `LitterboxError`, or a
panic (an `unwrap`/`expect` in the Rust code). -/
inductive LBResult (α : Type)
  | ok (a : α)
  | err (e : LitterboxError)
  | panic
deriving DecidableEq, Repr

/-- Modelled from the spec: the salted `argon2` password hash from the
external `argon2` crate (`hash_password` in `keys.rs` lines 17–28 draws a
random salt and produces a PHC hash string).  The opaque hash string is
modelled as the salt paired with an idealised memory-hard digest that matches
exactly the hashed password (spec §4.1: a password is correct iff the
verification function reports a match). -/
structure PasswordHash where
  salt : String
  digest : String
deriving DecidableEq, Repr

/-- Modelled from the spec: `hash_password` (`keys.rs` lines 17–28, external
`argon2` crate).  The random salt is an explicit input. -/
def hash_password (salt password : String) : PasswordHash :=
  { salt := salt, digest := salt ++ password }

/-- Modelled from the spec: `check_password` (`keys.rs` lines 30–39, external
`argon2` crate): verification succeeds exactly on the hashed password. -/
def check_password (password : String) (hash : PasswordHash) : Bool :=
  hash.digest = hash.salt ++ password

/-- `password.as_bytes()`: the byte view of a password, modelled as the list
of character codes. -/
def strBytes (s : String) : List Nat :=
  s.data.map Char.toNat

/-- Modelled from the spec: `encode_pkcs8_encrypted` from the external
`russh`/`pkcs8` crates (`keys.rs` line 53), the password-based envelope
encryption of generated key material.  Modelled as an idealised envelope that
records the password it was sealed under (length-prefixed) followed by the
key bytes; the fixed work factor `10` has no observable counterpart. -/
def encode_pkcs8_encrypted (password : List Nat) (key : List Nat) : List Nat :=
  password.length :: (password ++ key)

/-- Modelled from the spec: `decode_pkcs8` from the external `russh`/`pkcs8`
crates (`keys.rs` line 247), the password-based decryption.  It succeeds,
returning the original key bytes, exactly when the supplied password is the
one the envelope was sealed under; any other password fails deterministically
(`none`). -/
def decode_pkcs8 (blob : List Nat) (password : List Nat) : Option (List Nat) :=
  match blob with
  | [] => none
  | n :: rest =>
    if n = password.length ∧ rest.take n = password then some (rest.drop n)
    else none

/-- `Key` from `keys.rs` lines 41–46: a named encrypted key and its attached
sandbox names. -/
structure Key where
  name : String
  encrypted_key : List Nat
  attached_litterboxes : List String
deriving DecidableEq, Repr

/-- `Key::new` from `keys.rs` lines 48–61: generate a key pair (`gen_key`
draws from the OS RNG; the generated key material is an explicit input here)
and encrypt it under the given password; the attachment list starts empty. -/
def Key.new (name : String) (password : String) (keyMaterial : List Nat) :
    Key :=
  { name := name
    encrypted_key := encode_pkcs8_encrypted (strBytes password) keyMaterial
    attached_litterboxes := [] }

/-- `Keys` from `keys.rs` lines 78–82: the vault, a password hash and the
ordered key list. -/
structure Keys where
  password_hash : PasswordHash
  keys : List Key
deriving DecidableEq, Repr

/-- Contents of the key file (`keys.ron`): either a RON document that parses
to a vault value, or corrupt contents that do not parse.  The external `ron`
serializer/deserializer pair is modelled by the parse result it defines. -/
inductive FileContents
  | vault (k : Keys)
  | corrupt (s : String)
deriving DecidableEq, Repr

/-- The key file on disk: `none` when `keyfile_path()` does not exist. -/
abbrev KeyfileFS := Option FileContents

/-- `Keys::save_to_file` from `keys.rs` lines 87–94: serialize the vault with
`ron` and write it to the key file (file-system writes are modelled as
succeeding; their I/O failure modes are orthogonal to the claims). -/
def save_to_file (k : Keys) (_fs : KeyfileFS) : KeyfileFS :=
  some (.vault k)

/-- `Keys::init_default` from `keys.rs` lines 96–112: prompt for a master
password (`promptResult = none` models an aborted prompt, the `PromptError`
path), hash it with a fresh salt, create an empty key list and persist it. -/
def init_default (promptResult : Option String) (salt : String)
    (fs : KeyfileFS) : LBResult Keys × KeyfileFS :=
  match promptResult with
  | none => (.err .PromptError, fs)
  | some password =>
    let s : Keys := { password_hash := hash_password salt password, keys := [] }
    (.ok s, save_to_file s fs)

/-- `Keys::load` from `keys.rs` lines 114–126: if the key file does not
exist, fall through to `init_default`; otherwise read it and parse it with
`ron::from_str(..).unwrap()` — a panic when the contents do not parse. -/
def load (promptResult : Option String) (salt : String) (fs : KeyfileFS) :
    LBResult Keys × KeyfileFS :=
  match fs with
  | none => init_default promptResult salt fs
  | some (.vault k) => (.ok k, fs)
  | some (.corrupt _) => (.panic, fs)

/-- `Keys::key_mut` from `keys.rs` lines 150–152: the first key with the
given name, if any. -/
def key_mut (k : Keys) (key_name : String) : Option Key :=
  k.keys.find? (fun key => key.name = key_name)

/-- Mutation through the `&mut Key` that `key_mut` returns: apply `f` to the
first key with the given name, leaving every other key unchanged. -/
def update_key (keys : List Key) (key_name : String) (f : Key → Key) :
    List Key :=
  match keys with
  | [] => []
  | key :: rest =>
    if key.name = key_name then f key :: rest
    else key :: update_key rest key_name f

/-- `Keys::generate` from `keys.rs` lines 154–163: fail with
`KeyAlreadyExists` when the name is taken (before any prompt or mutation);
otherwise obtain the verified master password from `prompt_password`
(modelled as `promptResult`: `none` is the `PromptError` path, `some p` the
password that verified against the stored hash — the retry loop only ever
returns a verified password), append a freshly generated key and persist. -/
def generate (k : Keys) (key_name : String) (promptResult : Option String)
    (keyMaterial : List Nat) (fs : KeyfileFS) :
    LBResult Unit × Keys × KeyfileFS :=
  if (key_mut k key_name).isSome then
    (.err (.KeyAlreadyExists key_name), k, fs)
  else
    match promptResult with
    | none => (.err .PromptError, k, fs)
    | some password =>
      let k' : Keys :=
        { k with keys := k.keys ++ [Key.new key_name password keyMaterial] }
      (.ok (), k', save_to_file k' fs)

/-- `Keys::attach` from `keys.rs` lines 185–207: fail with `KeyDoesNotExist`
when no key has the given name; fail with `AlreadyAttachedToKey` when the
sandbox name is already in the key's attachment list; otherwise append the
sandbox name and persist. -/
def attach (k : Keys) (key_name litterbox_name : String) (fs : KeyfileFS) :
    LBResult Unit × Keys × KeyfileFS :=
  match key_mut k key_name with
  | some key =>
    if key.attached_litterboxes.any (fun name => name = litterbox_name) then
      (.err (.AlreadyAttachedToKey key_name litterbox_name), k, fs)
    else
      let k' : Keys :=
        { k with
          keys := update_key k.keys key_name (fun key =>
            { key with
              attached_litterboxes :=
                key.attached_litterboxes ++ [litterbox_name] }) }
      (.ok (), k', save_to_file k' fs)
  | none => (.err (.KeyDoesNotExist key_name), k, fs)

/-- `Keys::detach` from `keys.rs` lines 209–229: fail with `KeyDoesNotExist`
when no key has the given name; otherwise present the attachment list as a
multi-select (`promptResult`: `none` is the `PromptError` path, `some l` the
chosen sandbox names), retain only the attachments not chosen, and persist. -/
def detach (k : Keys) (key_name : String)
    (promptResult : Option (List String)) (fs : KeyfileFS) :
    LBResult Unit × Keys × KeyfileFS :=
  match key_mut k key_name with
  | some _ =>
    match promptResult with
    | none => (.err .PromptError, k, fs)
    | some to_remove =>
      let k' : Keys :=
        { k with
          keys := update_key k.keys key_name (fun key =>
            { key with
              attached_litterboxes :=
                key.attached_litterboxes.filter
                  (fun name => !to_remove.contains name) }) }
      (.ok (), k', save_to_file k' fs)
  | none => (.err (.KeyDoesNotExist key_name), k, fs)

/-- The body of the key-registration loop of `Keys::start_server`: decrypt
each filtered key in order with the verified master password; the
`.expect(..)` on a failed decryption (a panic) is modelled by `none`. -/
def decrypt_keys (password : String) : List Key → Option (List (List Nat))
  | [] => some []
  | key :: rest =>
    match decode_pkcs8 key.encrypted_key (strBytes password),
        decrypt_keys password rest with
    | some d, some ds => some (d :: ds)
    | _, _ => none

/-- The key-registration phase of `Keys::start_server` (`keys.rs` lines
231–257): filter the keys whose attachment list contains the sandbox name and
decrypt each with the verified master password. -/
def decrypt_for_session (k : Keys) (lbx_name : String) (password : String) :
    Option (List (List Nat)) :=
  decrypt_keys password
    (k.keys.filter
      (fun key => key.attached_litterboxes.any (fun name => name = lbx_name)))

/-! ## Helper lemmas about the confirmation policy -/

theorem confirm_prompts_true_iff (st : AgentState) (req : UserRequest) :
    confirm_prompts st req = true ↔
      st.locked = true ∧
        ¬(req = UserRequest.RequestKeys ∧ st.approved_for_session = true) := by
  obtain ⟨l, a⟩ := st
  cases req <;> cases l <;> cases a <;> decide

theorem confirm_request_of_not_prompts (st : AgentState) (req : UserRequest)
    (h : confirm_prompts st req = false) (sub : SubprocessOutcome) :
    confirm_request st req sub = .ok true st := by
  obtain ⟨l, a⟩ := st
  by_cases hreq : req = UserRequest.RequestKeys
  · subst hreq
    cases l <;> cases a <;> simp_all [confirm_prompts, confirm_request]
  · cases l <;> cases a <;> simp_all [confirm_prompts, confirm_request]

theorem confirm_request_stdout_of_prompts (st : AgentState)
    (req : UserRequest) (h : confirm_prompts st req = true)
    (out : List Char) :
    confirm_request st req (.stdout out) =
      (if out = [] then ConfirmResult.panic
       else
        match parseUserResponse out.dropLast with
        | some .Approved => .ok true st
        | some .Declined => .ok false st
        | some .ApprovedForSession =>
            .ok true { st with approved_for_session := true }
        | none => .ok false st) := by
  rw [confirm_prompts_true_iff] at h
  obtain ⟨hl, hna⟩ := h
  unfold confirm_request
  rw [if_neg (by simp [hl]), if_neg hna]

/-! ## The claims -/

/-- C1: the claim states that the default `AgentState` has `locked == true`
(an agent born locked).  The code's `Default` impl initialises
`locked = false`, and with that default every request — including the first
`RequestKeys` — is auto-approved without any confirmation prompt. -/
theorem agent_default_state_unlocked :
    AgentState.default.locked = false ∧
    ∀ (req : UserRequest) (sub : SubprocessOutcome),
      confirm_request AgentState.default req sub = .ok true AgentState.default := by
  exact ⟨rfl, fun req sub => rfl⟩

/-- C2: every confirmation-transport failure yields denial, never approval,
with the agent state unchanged: in the channel-based variant a closed request
channel (`sendFailed`) or a dropped response sender (`recvFailed`) returns
`false`; in the subprocess variant a malformed response token (one that does
not parse after the newline trim) returns `false` and leaves the state as it
was. -/
theorem confirm_request_fail_closed (st : AgentState) (req : UserRequest)
    (s : List Char) (hp : confirm_prompts st req = true) (hs : s ≠ [])
    (hm : parseUserResponse s.dropLast = none) :
    confirm_request_chan .sendFailed = false ∧
    confirm_request_chan .recvFailed = false ∧
    confirm_request st req (.stdout s) = .ok false st := by
  refine ⟨rfl, rfl, ?_⟩
  rw [confirm_request_stdout_of_prompts st req hp, if_neg hs, hm]

theorem confirm_request_fail_closed_witness :
    confirm_request ⟨true, false⟩ .Sign (.stdout "garbage\n".data) =
      .ok false ⟨true, false⟩ :=
  (confirm_request_fail_closed ⟨true, false⟩ .Sign "garbage\n".data
    (by decide) (by decide) (by decide)).2.2

/-- C3: `confirm_request` issues a confirmation prompt iff the agent is
locked and the request is not a session-approved `RequestKeys`; when no
prompt is issued the request is approved with no dependence whatsoever on the
confirmation transport, and when a prompt is issued the decision follows the
transport's answer. -/
theorem confirm_request_prompt_characterization (st : AgentState)
    (req : UserRequest) :
    (confirm_prompts st req = true ↔
      st.locked = true ∧
        ¬(req = UserRequest.RequestKeys ∧ st.approved_for_session = true)) ∧
    (confirm_prompts st req = false →
      ∀ sub, confirm_request st req sub = .ok true st) ∧
    (confirm_prompts st req = true →
      confirm_request st req (.stdout "Approved\n".data) = .ok true st ∧
      confirm_request st req (.stdout "Declined\n".data) = .ok false st) := by
  refine ⟨confirm_prompts_true_iff st req,
    fun h sub => confirm_request_of_not_prompts st req h sub, fun h => ?_⟩
  constructor
  · rw [confirm_request_stdout_of_prompts st req h, if_neg (by decide)]
    have hp : parseUserResponse ("Approved\n".data).dropLast =
        some UserResponse.Approved := by decide
    rw [hp]
  · rw [confirm_request_stdout_of_prompts st req h, if_neg (by decide)]
    have hp : parseUserResponse ("Declined\n".data).dropLast =
        some UserResponse.Declined := by decide
    rw [hp]

theorem confirm_request_prompt_characterization_witness :
    confirm_request ⟨false, true⟩ .Sign .failure = .ok true ⟨false, true⟩ ∧
    confirm_request ⟨true, false⟩ .Sign (.stdout "Approved\n".data) =
      .ok true ⟨true, false⟩ :=
  ⟨(confirm_request_prompt_characterization ⟨false, true⟩ .Sign).2.1
      (by decide) .failure,
    ((confirm_request_prompt_characterization ⟨true, false⟩ .Sign).2.2
      (by decide)).1⟩

/-- C4: an `ApprovedForSession` answer approves the operation and sets
`approved_for_session`; in a locked state with `approved_for_session` set,
`RequestKeys` is approved without consulting the transport while every other
request kind still prompts; and the dialog offers the `Approve for Session`
button exactly for `RequestKeys`. -/
theorem approved_for_session_semantics (st st' : AgentState)
    (reqP reqO : UserRequest) (reqAny : UserRequest)
    (hp : confirm_prompts st reqP = true) (hl : st'.locked = true)
    (ha : st'.approved_for_session = true)
    (hO : reqO ≠ UserRequest.RequestKeys) :
    confirm_request st reqP (.stdout "ApprovedForSession\n".data) =
      .ok true { st with approved_for_session := true } ∧
    (∀ sub, confirm_request st' .RequestKeys sub = .ok true st') ∧
    confirm_prompts st' .RequestKeys = false ∧
    confirm_prompts st' reqO = true ∧
    (may_approve_for_session reqAny = true ↔
      reqAny = UserRequest.RequestKeys) := by
  have hrk : confirm_prompts st' .RequestKeys = false := by
    simp [confirm_prompts, ha]
  refine ⟨?_, fun sub => confirm_request_of_not_prompts st' _ hrk sub, hrk,
    ?_, ?_⟩
  · rw [confirm_request_stdout_of_prompts st reqP hp, if_neg (by decide)]
    have hs : parseUserResponse ("ApprovedForSession\n".data).dropLast =
        some UserResponse.ApprovedForSession := by decide
    rw [hs]
  · simp [confirm_prompts, hl, hO]
  · simp [may_approve_for_session]

theorem approved_for_session_semantics_witness :
    confirm_request ⟨true, false⟩ .RequestKeys
        (.stdout "ApprovedForSession\n".data) = .ok true ⟨true, true⟩ ∧
    confirm_request ⟨true, true⟩ .RequestKeys .failure =
      .ok true ⟨true, true⟩ ∧
    confirm_prompts ⟨true, true⟩ .Sign = true := by
  obtain ⟨h1, h2, -, h4, -⟩ :=
    approved_for_session_semantics ⟨true, false⟩ ⟨true, true⟩ .RequestKeys
      .Sign .Sign (by decide) rfl rfl (by decide)
  exact ⟨h1, h2 .failure, h4⟩

/-- C9 counterexample: the stdout trimming step of `confirm_request` is not
total — on the empty stdout string the slice `&stdout[..(stdout.len() - 1)]`
panics, and on a stdout with no trailing newline it removes the final
non-newline character (here turning the valid token `Approved` into
`Approve`, which no longer parses, yielding denial). -/
theorem stdout_trim_counterexample :
    confirm_request ⟨true, false⟩ .Sign (.stdout []) = .panic ∧
    confirm_request ⟨true, false⟩ .Sign (.stdout "Approved".data) =
      .ok false ⟨true, false⟩ := by
  decide

/-- C9 amended: the parsing step always removes exactly the final character
of the subprocess's stdout; for any stdout ending in a newline it therefore
strips exactly that one trailing newline, removes no other character, and
does not panic — but it panics on the empty stdout. -/
theorem stdout_trim_amended (st : AgentState) (req : UserRequest)
    (s : List Char) (hp : confirm_prompts st req = true)
    (hn : s.getLast? = some '\n') :
    s.dropLast ++ ['\n'] = s ∧
    confirm_request st req (.stdout s) ≠ .panic ∧
    confirm_request st req (.stdout []) = .panic := by
  have hne : s ≠ [] := by
    rintro rfl
    simp at hn
  refine ⟨?_, ?_, ?_⟩
  · have hlast : s.getLast hne = '\n' := by
      rw [List.getLast?_eq_getLast s hne] at hn
      exact Option.some.inj hn
    rw [← hlast]
    exact List.dropLast_append_getLast hne
  · rw [confirm_request_stdout_of_prompts st req hp, if_neg hne]
    cases hx : parseUserResponse s.dropLast with
    | none => simp [hx]
    | some r => cases r <;> simp [hx]
  · rw [confirm_request_stdout_of_prompts st req hp]
    simp

theorem stdout_trim_amended_witness :
    ("Declined\n".data).dropLast ++ ['\n'] = "Declined\n".data ∧
    confirm_request ⟨true, false⟩ .Lock (.stdout "Declined\n".data) ≠
      .panic :=
  ⟨(stdout_trim_amended ⟨true, false⟩ .Lock "Declined\n".data (by decide)
      (by decide)).1,
    (stdout_trim_amended ⟨true, false⟩ .Lock "Declined\n".data (by decide)
      (by decide)).2.1⟩

/-- C10: `prompt_confirmation` defaults to denial — whenever the dialog run
ends without a click on `Approve` or `Approve for Session` (window closed,
`Decline` clicked, or the GUI failing to start), the token printed to stdout
is `Declined`. -/
theorem prompt_confirmation_fail_closed (request : List Char)
    (req : UserRequest) (guiOk : Bool) (click : Option DialogClick)
    (hreq : parseUserRequest request = some req)
    (h1 : click ≠ some .approve) (h2 : click ≠ some .approveForSession) :
    prompt_confirmation request guiOk click = some "Declined".data := by
  unfold prompt_confirmation
  rw [hreq]
  cases guiOk
  · rfl
  · rcases click with _ | c
    · rfl
    · cases c
      · exact absurd rfl h1
      · rfl
      · exact absurd rfl h2

theorem prompt_confirmation_fail_closed_witness :
    prompt_confirmation "Sign".data false none = some "Declined".data :=
  prompt_confirmation_fail_closed "Sign".data .Sign false none (by decide)
    (by decide) (by decide)

/-! ## Helper lemmas about the vault -/

theorem char_toNat_injective : Function.Injective Char.toNat := by
  intro c d h
  rw [← Char.ofNat_toNat c, ← Char.ofNat_toNat d, h]

theorem strBytes_injective : Function.Injective strBytes := by
  intro a b h
  exact String.ext (List.map_injective_iff.mpr char_toNat_injective h)

theorem decode_encode_pkcs8 (password key : List Nat) :
    decode_pkcs8 (encode_pkcs8_encrypted password key) password = some key := by
  show (if password.length = password.length ∧
      (password ++ key).take password.length = password then
      some ((password ++ key).drop password.length) else none) = some key
  rw [if_pos ⟨rfl, List.take_left _ _⟩, List.drop_left]

theorem decode_encode_pkcs8_ne (password password' key : List Nat)
    (h : password' ≠ password) :
    decode_pkcs8 (encode_pkcs8_encrypted password key) password' = none := by
  show (if password.length = password'.length ∧
      (password ++ key).take password.length = password' then
      some ((password ++ key).drop password.length) else none) = none
  rw [if_neg]
  rintro ⟨hlen, htake⟩
  rw [List.take_left] at htake
  exact h htake.symm

theorem key_mut_update_key (keys : List Key) (n : String) (f : Key → Key)
    (hf : ∀ key, (f key).name = key.name) (key : Key)
    (h : keys.find? (fun k => k.name = n) = some key) :
    (update_key keys n f).find? (fun k => k.name = n) = some (f key) := by
  induction keys with
  | nil => simp at h
  | cons head tail ih =>
    unfold update_key
    by_cases hh : head.name = n
    · rw [if_pos hh]
      rw [List.find?_cons_of_pos _ (by simp [hh])] at h
      rw [List.find?_cons_of_pos _ (by simp [hf head, hh])]
      rw [show head = key from Option.some.inj h]
    · rw [if_neg hh]
      rw [List.find?_cons_of_neg _ (by simp [hh])] at h
      rw [List.find?_cons_of_neg _ (by simp [hh])]
      exact ih h

/-- C5: `Keys::load` on a missing key file transparently falls through to
`init_default` (no "vault does not exist" error reaches the caller); but on a
key file whose contents do not parse, the code panics
(`ron::from_str(..).unwrap()`) instead of failing with a parse error. -/
theorem load_first_run_and_corrupt_panic :
    load (some "pw") "salt" none = init_default (some "pw") "salt" none ∧
    (load (some "pw") "salt" none).1 =
      .ok { password_hash := hash_password "salt" "pw", keys := [] } ∧
    load (some "pw") "salt" (some (.corrupt "not a ron document")) =
      (.panic, some (.corrupt "not a ron document")) := by
  exact ⟨rfl, rfl, rfl⟩

/-- C6: a generated key encrypted under password `P`, persisted and reloaded
with the vault, decrypts under `P` to the original key material byte for
byte, and fails deterministically under any other password; the decryption
loop of `start_server` recovers exactly the attached key's material. -/
theorem vault_roundtrip_encryption (name P Pw : String) (km : List Nat)
    (k0 : Keys) (fs : KeyfileFS) (pr : Option String) (salt : String)
    (hne : Pw ≠ P) :
    (load pr salt
        (save_to_file { k0 with keys := k0.keys ++ [Key.new name P km] }
          fs)).1 =
      .ok { k0 with keys := k0.keys ++ [Key.new name P km] } ∧
    decode_pkcs8 (Key.new name P km).encrypted_key (strBytes P) = some km ∧
    decode_pkcs8 (Key.new name P km).encrypted_key (strBytes Pw) = none ∧
    ∀ (h : PasswordHash) (lbx : String),
      decrypt_for_session
        ⟨h, [{ Key.new name P km with attached_litterboxes := [lbx] }]⟩
        lbx P = some [km] := by
  have hdec : decode_pkcs8 (Key.new name P km).encrypted_key (strBytes P) =
      some km := decode_encode_pkcs8 _ _
  refine ⟨rfl, hdec, ?_, ?_⟩
  · exact decode_encode_pkcs8_ne _ _ _
      (fun hEq => hne (strBytes_injective hEq))
  · intro h lbx
    simp [decrypt_for_session, decrypt_keys, hdec]

theorem vault_roundtrip_encryption_witness :
    decode_pkcs8 (Key.new "alpha" "P" [1, 2, 3]).encrypted_key
        (strBytes "P") = some [1, 2, 3] ∧
    decode_pkcs8 (Key.new "alpha" "P" [1, 2, 3]).encrypted_key
        (strBytes "Q") = none :=
  ⟨(vault_roundtrip_encryption "alpha" "P" "Q" [1, 2, 3]
      ⟨hash_password "s" "p", []⟩ none none "s" (by decide)).2.1,
    (vault_roundtrip_encryption "alpha" "P" "Q" [1, 2, 3]
      ⟨hash_password "s" "p", []⟩ none none "s" (by decide)).2.2.1⟩

/-- C7: `Keys::generate` on a name already in the vault fails with
`KeyAlreadyExists` and leaves both the in-memory vault and the key file
exactly as they were. -/
theorem generate_duplicate_unchanged (k : Keys) (key_name : String)
    (promptResult : Option String) (keyMaterial : List Nat) (fs : KeyfileFS)
    (h : (key_mut k key_name).isSome = true) :
    generate k key_name promptResult keyMaterial fs =
      (.err (.KeyAlreadyExists key_name), k, fs) := by
  unfold generate
  rw [if_pos h]

theorem generate_duplicate_unchanged_witness :
    generate ⟨hash_password "s" "pw", [Key.new "alpha" "pw" [1, 2]]⟩ "alpha"
        (some "pw") [3, 4] none =
      (.err (.KeyAlreadyExists "alpha"),
        ⟨hash_password "s" "pw", [Key.new "alpha" "pw" [1, 2]]⟩, none) :=
  generate_duplicate_unchanged
    ⟨hash_password "s" "pw", [Key.new "alpha" "pw" [1, 2]]⟩ "alpha"
    (some "pw") [3, 4] none (by decide)

/-- C8: `Keys::attach` of a sandbox already in the key's attachment list
fails with `AlreadyAttachedToKey` leaving vault and key file unchanged;
`attach` of an absent key fails with `KeyDoesNotExist`; and after a
`Keys::detach` that removes that sandbox name, re-running `attach` for the
same pair succeeds. -/
theorem attach_detach_semantics (k kb : Keys) (key_name lbx : String)
    (fs fsb : KeyfileFS) (key : Key)
    (hfind : key_mut k key_name = some key)
    (hmem : lbx ∈ key.attached_litterboxes)
    (hnone : key_mut kb key_name = none) :
    attach k key_name lbx fs =
      (.err (.AlreadyAttachedToKey key_name lbx), k, fs) ∧
    attach kb key_name lbx fsb =
      (.err (.KeyDoesNotExist key_name), kb, fsb) ∧
    (detach k key_name (some [lbx]) fs).1 = .ok () ∧
    (attach (detach k key_name (some [lbx]) fs).2.1 key_name lbx
        (detach k key_name (some [lbx]) fs).2.2).1 = .ok () := by
  have hany : key.attached_litterboxes.any (fun name => name = lbx) =
      true := by
    rw [List.any_eq_true]
    exact ⟨lbx, hmem, by simp⟩
  refine ⟨?_, ?_, ?_, ?_⟩
  · simp [attach, hfind, hany]
  · simp [attach, hnone]
  · simp [detach, hfind]
  · have hfind2 :
        key_mut
          { k with
            keys := update_key k.keys key_name (fun key =>
              { key with
                attached_litterboxes := key.attached_litterboxes.filter
                  (fun name => !decide (name = lbx)) }) } key_name =
        some { key with
          attached_litterboxes := key.attached_litterboxes.filter
            (fun name => !decide (name = lbx)) } :=
      key_mut_update_key k.keys key_name
        (fun key =>
          { key with
            attached_litterboxes := key.attached_litterboxes.filter
              (fun name => !decide (name = lbx)) })
        (fun key0 => rfl) key hfind
    have hany2 :
        ((key.attached_litterboxes.filter
            (fun name => !decide (name = lbx))).any
          (fun name => name = lbx)) = false := by
      rw [List.any_eq_false]
      intro x hx
      have hx2 := (List.mem_filter.mp hx).2
      simp only [Bool.not_eq_eq_eq_not, Bool.not_true,
        decide_eq_false_iff_not] at hx2
      simp [hx2]
    simp [detach, hfind, attach, hfind2, hany2]

theorem attach_detach_semantics_witness :
    (detach ⟨hash_password "s" "p", [⟨"alpha", [5], ["boxA"]⟩]⟩ "alpha"
        (some ["boxA"]) none).1 = .ok () ∧
    (attach
        (detach ⟨hash_password "s" "p", [⟨"alpha", [5], ["boxA"]⟩]⟩ "alpha"
          (some ["boxA"]) none).2.1 "alpha" "boxA"
        (detach ⟨hash_password "s" "p", [⟨"alpha", [5], ["boxA"]⟩]⟩ "alpha"
          (some ["boxA"]) none).2.2).1 = .ok () :=
  let h := attach_detach_semantics
    ⟨hash_password "s" "p", [⟨"alpha", [5], ["boxA"]⟩]⟩
    ⟨hash_password "s" "p", []⟩ "alpha" "boxA" none none
    ⟨"alpha", [5], ["boxA"]⟩ (by decide) (by decide) (by decide)
  ⟨h.2.2.1, h.2.2.2⟩

end Litterbox
